import Mathlib

/-!
Verification of the device-identity bootstrap and registration handshake of
the smart-parking firmware (`src/hw/src/MQTTClient.h` and the firmware main
file).  Strings are modelled as lists of byte values (`List Nat`), matching
the C byte-array view of Arduino `String`s.  The MQTT client's registration
state machine is modelled by explicit state passing; the network is an
oracle parameter (connect / publish success flags) and observable channel
actions are recorded in a list.
-/

namespace FindSpot

/-- Byte values of a Lean string literal (ASCII), used to state concrete
examples readably. -/
def str (s : String) : List Nat := s.data.map Char.toNat

/-- ASCII lower-casing of one byte, the per-character effect of Arduino
`String.toLowerCase`. -/
def lowerByte (b : Nat) : Nat := if 65 ≤ b ∧ b ≤ 90 then b + 32 else b

/-- `String.toLowerCase` over the whole byte string. -/
def lowerStr (l : List Nat) : List Nat := l.map lowerByte

/-- `String.replace(":", "")`: removes every colon (byte 58). -/
def stripColons (l : List Nat) : List Nat := l.filter (fun b => b ≠ 58)

/-- ASCII code of the lower-case hex digit for `n < 16` (as `sprintf "%x"`). -/
def hexDigit (n : Nat) : Nat := if n < 10 then 48 + n else 87 + n

/-- `sprintf "%02x"` of one byte value (bytes are `< 256`). -/
def hexByte (b : Nat) : List Nat := [hexDigit (b / 16 % 16), hexDigit (b % 16)]

/-- Hex rendering of a byte list, two lower-case digits per byte. -/
def hexChars (l : List Nat) : List Nat := l.flatMap hexByte

/-! ## SHA-256 (the mbedTLS digest used by `generateMQTTPassword`) -/

/-- Truncation to a 32-bit word. -/
def w32 (n : Nat) : Nat := n % 4294967296

/-- 32-bit right rotation. -/
def rotr32 (x n : Nat) : Nat := w32 (Nat.lor (x >>> n) (x <<< (32 - n)))

def ch32 (x y z : Nat) : Nat := Nat.xor (Nat.land x y) (Nat.land (Nat.xor x 4294967295) z)

def maj32 (x y z : Nat) : Nat :=
  Nat.xor (Nat.land x y) (Nat.xor (Nat.land x z) (Nat.land y z))

def bsig0 (x : Nat) : Nat := Nat.xor (rotr32 x 2) (Nat.xor (rotr32 x 13) (rotr32 x 22))

def bsig1 (x : Nat) : Nat := Nat.xor (rotr32 x 6) (Nat.xor (rotr32 x 11) (rotr32 x 25))

def ssig0 (x : Nat) : Nat := Nat.xor (rotr32 x 7) (Nat.xor (rotr32 x 18) (x >>> 3))

def ssig1 (x : Nat) : Nat := Nat.xor (rotr32 x 17) (Nat.xor (rotr32 x 19) (x >>> 10))

/-- The 64 SHA-256 round constants (FIPS 180-4, in decimal). -/
def sha256K : List Nat :=
  [1116352408, 1899447441, 3049323471, 3921009573, 961987163, 1508970993,
   2453635748, 2870763221, 3624381080, 310598401, 607225278, 1426881987,
   1925078388, 2162078206, 2614888103, 3248222580, 3835390401, 4022224774,
   264347078, 604807628, 770255983, 1249150122, 1555081692, 1996064986,
   2554220882, 2821834349, 2952996808, 3210313671, 3336571891, 3584528711,
   113926993, 338241895, 666307205, 773529912, 1294757372, 1396182291,
   1695183700, 1986661051, 2177026350, 2456956037, 2730485921, 2820302411,
   3259730800, 3345764771, 3516065817, 3600352804, 4094571909, 275423344,
   430227734, 506948616, 659060556, 883997877, 958139571, 1322822218,
   1537002063, 1747873779, 1955562222, 2024104815, 2227730452, 2361852424,
   2428436474, 2756734187, 3204031479, 3329325298]

/-- The eight 32-bit words of the SHA-256 working state. -/
structure Hash8 where
  a : Nat
  b : Nat
  c : Nat
  d : Nat
  e : Nat
  f : Nat
  g : Nat
  h : Nat

/-- One SHA-256 compression round; `kw` is the pair of round constant and
message-schedule word. -/
def roundStep (st : Hash8) (kw : Nat × Nat) : Hash8 :=
  let t1 := w32 (st.h + bsig1 st.e + ch32 st.e st.f st.g + kw.1 + kw.2)
  let t2 := w32 (bsig0 st.a + maj32 st.a st.b st.c)
  ⟨w32 (t1 + t2), st.a, st.b, st.c, w32 (st.d + t1), st.e, st.f, st.g⟩

/-- Extend the 16 block words to the 64-word message schedule. -/
def scheduleW (ws : List Nat) : List Nat :=
  (List.range 48).foldl
    (fun acc _ =>
      let i := acc.length
      acc ++ [w32 (ssig1 (acc.getD (i - 2) 0) + acc.getD (i - 7) 0 +
                   ssig0 (acc.getD (i - 15) 0) + acc.getD (i - 16) 0)])
    ws

/-- SHA-256 compression of one 512-bit block (given as 16 words). -/
def compress (hs : Hash8) (block : List Nat) : Hash8 :=
  let fin := (sha256K.zip (scheduleW block)).foldl roundStep hs
  ⟨w32 (hs.a + fin.a), w32 (hs.b + fin.b), w32 (hs.c + fin.c), w32 (hs.d + fin.d),
   w32 (hs.e + fin.e), w32 (hs.f + fin.f), w32 (hs.g + fin.g), w32 (hs.h + fin.h)⟩

/-- Split a list into chunks of `n` elements (the last may be shorter). -/
def chunksOf (n : Nat) (l : List α) : List (List α) :=
  if h : n = 0 then []
  else
    match l with
    | [] => []
    | a :: t => (a :: t).take n :: chunksOf n ((a :: t).drop n)
termination_by l.length
decreasing_by
  simp only [List.length_drop, List.length_cons]
  omega

/-- Big-endian 8-byte rendering of the bit length. -/
def be64 (n : Nat) : List Nat :=
  [(n >>> 56) % 256, (n >>> 48) % 256, (n >>> 40) % 256, (n >>> 32) % 256,
   (n >>> 24) % 256, (n >>> 16) % 256, (n >>> 8) % 256, n % 256]

/-- SHA-256 padding: `0x80`, zeros to 56 mod 64, then the 64-bit bit length. -/
def padMessage (msg : List Nat) : List Nat :=
  msg ++ 128 :: (List.replicate ((64 - (msg.length + 9) % 64) % 64) 0 ++ be64 (msg.length * 8))

/-- Big-endian 32-bit word from 4 bytes. -/
def wordOf (c : List Nat) : Nat :=
  c.getD 0 0 * 16777216 + c.getD 1 0 * 65536 + c.getD 2 0 * 256 + c.getD 3 0

/-- SHA-256 digest: byte list of length 32. -/
def sha256 (msg : List Nat) : List Nat :=
  let blocks := (chunksOf 64 (padMessage msg)).map (fun b => (chunksOf 4 b).map wordOf)
  let hf := blocks.foldl compress
    ⟨1779033703, 3144134277, 1013904242, 2773480762,
     1359893119, 2600822924, 528734635, 1541459225⟩
  [hf.a, hf.b, hf.c, hf.d, hf.e, hf.f, hf.g, hf.h].flatMap
    (fun w => [(w >>> 24) % 256, (w >>> 16) % 256, (w >>> 8) % 256, w % 256])

/-! ## Credential derivation (`MQTTClient.h`, lines 31–70)

`generateMQTTUsername` / `generateMQTTPassword` translate the code: the MAC
has its colons removed, is lower-cased, and for the password is concatenated
with the salt (`MQTT_PASS`), hashed with SHA-256, and the first 16 hash bytes
are rendered as 32 hex characters.  The device prefix (`MQTT_DEVICE_PREFIX`)
and the salt are configuration macros, taken here as parameters. -/

def generateMQTTUsername (mac pre : List Nat) : List Nat :=
  pre ++ 95 :: lowerStr (stripColons mac)

def generateMQTTPassword (mac salt : List Nat) : List Nat :=
  hexChars ((sha256 (lowerStr (stripColons mac) ++ salt)).take 16)

/-- The spec's contract, written from its words:
`deriveUsername(mac, prefix) = prefix + "_" + lowercase(stripSeparators(mac))`. -/
def deriveUsername (mac pre : List Nat) : List Nat :=
  pre ++ 95 :: lowerStr (stripColons mac)

/-- The spec's contract, written from its words:
`derivePassword(mac, salt) = hex(sha256(stripSeparators(lowercase(mac)) + salt))[0:32]`. -/
def derivePassword (mac salt : List Nat) : List Nat :=
  (hexChars (sha256 (stripColons (lowerStr mac) ++ salt))).take 32

/-! ## Registration state machine (`MQTTClient.h`, lines 17–507)

The mutable fields of the `MQTTClient` object.  `connected` models
`mqttClient.connected()`; network success of `connect` / `publish` calls is
passed in as an oracle (`cOk` / `pOk`).  Observable channel actions are
returned alongside the new state. -/

structure ClientState where
  deviceId : Int := -1
  macAddress : List Nat := []
  connected : Bool := false
  lastReconnectAttempt : Nat := 0
  deviceRegistrationComplete : Bool := false
  sensorsRegistrationComplete : Bool := false
  waitingForResponse : Bool := false
  responseTimeout : Nat := 0
deriving DecidableEq

/-- Parsed registration-response JSON, as read by `handleRegistrationResponse`:
`status` and `id` keys may be absent (`none`); the ArduinoJson `as<int>` of a
missing count key yields 0, so the counts are plain values. -/
structure RespDoc where
  status : Option (List Nat) := none
  id : Option Int := none
  sensorsRegistered : Int := 0
  camerasRegistered : Int := 0
  message : List Nat := []
deriving DecidableEq

/-- Observable channel actions of the client. -/
inductive ChanAction
  | disconnect
  | connectAttempt (operational : Bool)
  | pubDeviceReg
  | pubSensorReg (deviceId : Int)
  | pubSensorData (deviceId : Int) (index : Int)
deriving DecidableEq

def isPublishAction : ChanAction → Bool
  | ChanAction.pubDeviceReg => true
  | ChanAction.pubSensorReg _ => true
  | ChanAction.pubSensorData _ _ => true
  | _ => false

/-- 32-bit unsigned subtraction, for `millis()` arithmetic on `unsigned long`. -/
def sub32 (a b : Nat) : Nat :=
  (a % 4294967296 + (4294967296 - b % 4294967296)) % 4294967296

/-- `reconnect()` (lines 72–117): refuses when the MAC is unset, otherwise
attempts one connect — with the backend (bootstrap) credentials while device
registration is incomplete, with the derived device credentials afterwards.
The emitted `connectAttempt` records which credential set was used. -/
def reconnect (cOk : Bool) (s : ClientState) : ClientState × Bool × List ChanAction :=
  if s.macAddress = [] then (s, false, [])
  else if cOk then
    ({ s with connected := true }, true,
     [ChanAction.connectAttempt s.deviceRegistrationComplete])
  else
    ({ s with connected := false }, false,
     [ChanAction.connectAttempt s.deviceRegistrationComplete])

/-- The reconnection half of `loop()` (lines 144–155). -/
def reconnectPhase (now : Nat) (cOk : Bool) (s : ClientState) : ClientState × List ChanAction :=
  if s.connected then (s, [])
  else if sub32 now s.lastReconnectAttempt > 5000 then
    (if (reconnect cOk { s with lastReconnectAttempt := now }).2.1 then
       { (reconnect cOk { s with lastReconnectAttempt := now }).1 with lastReconnectAttempt := 0 }
     else (reconnect cOk { s with lastReconnectAttempt := now }).1,
     (reconnect cOk { s with lastReconnectAttempt := now }).2.2)
  else (s, [])

/-- The response-timeout check of `loop()` (lines 158–161). -/
def clearTimeout (now : Nat) (p : ClientState × List ChanAction) : ClientState × List ChanAction :=
  if p.1.waitingForResponse = true ∧ sub32 now p.1.responseTimeout > 10000 then
    ({ p.1 with waitingForResponse := false }, p.2)
  else p

/-- `loop()` (lines 143–162): reconnect if needed, then expire a pending
response timeout. -/
def loopFn (now : Nat) (cOk : Bool) (s : ClientState) : ClientState × List ChanAction :=
  clearTimeout now (reconnectPhase now cOk s)

/-- `handleRegistrationResponse` (lines 408–469).  `msg = none` is a payload
that failed JSON parsing. -/
def handleRegistrationResponse (cOk : Bool) (s : ClientState) (msg : Option RespDoc) :
    ClientState × Bool × List ChanAction :=
  match msg with
  | none => ({ s with waitingForResponse := false }, false, [])
  | some doc =>
    match doc.status with
    | none => (s, false, [])
    | some st =>
      if st = str "registered" then
        if s.deviceRegistrationComplete = false then
          -- device-registration branch: set the flag, store the id when
          -- present, then disconnect and reconnect with device credentials
          let s1 := { s with deviceRegistrationComplete := true }
          let s2 := match doc.id with
            | some i => { s1 with deviceId := i }
            | none => s1
          let s3 := { s2 with connected := false }
          ({ (reconnect cOk s3).1 with waitingForResponse := false }, true,
           ChanAction.disconnect :: (reconnect cOk s3).2.2)
        else
          -- sensors-registration branch
          ({ s with sensorsRegistrationComplete := true, waitingForResponse := false }, true, [])
      else
        -- includes status = "error": log only, no state change
        (s, false, [])

/-- `registerDevice` (lines 192–234): connect if needed, publish the
device-registration request, and on success arm the response timer. -/
def registerDevice (now : Nat) (cOk pOk : Bool) (s : ClientState) :
    ClientState × Bool × List ChanAction :=
  if s.connected then
    if pOk then
      ({ s with waitingForResponse := true, responseTimeout := now }, true,
       [ChanAction.pubDeviceReg])
    else (s, false, [ChanAction.pubDeviceReg])
  else if (reconnect cOk s).2.1 then
    if pOk then
      ({ (reconnect cOk s).1 with waitingForResponse := true, responseTimeout := now }, true,
       (reconnect cOk s).2.2 ++ [ChanAction.pubDeviceReg])
    else ((reconnect cOk s).1, false, (reconnect cOk s).2.2 ++ [ChanAction.pubDeviceReg])
  else ((reconnect cOk s).1, false, (reconnect cOk s).2.2)

/-- `registerSensors` (lines 236–405): bails out when disconnected, otherwise
publishes the grouped sensor payload (carrying the current `deviceId`) and on
success arms the response timer. -/
def registerSensors (now : Nat) (pOk : Bool) (s : ClientState) :
    ClientState × Bool × List ChanAction :=
  if s.connected then
    if pOk then
      ({ s with waitingForResponse := true, responseTimeout := now }, true,
       [ChanAction.pubSensorReg s.deviceId])
    else (s, false, [ChanAction.pubSensorReg s.deviceId])
  else (s, false, [])

/-- `publishSensorData` (lines 471–487).  `msg` is the parse result of the
sensor JSON (its `index` field); `none` is a parse failure. -/
def publishSensorData (pOk : Bool) (s : ClientState) (msg : Option Int) :
    ClientState × Bool × List ChanAction :=
  if s.sensorsRegistrationComplete then
    match msg with
    | none => (s, false, [])
    | some idx =>
      if s.connected then
        if pOk then (s, true, [ChanAction.pubSensorData s.deviceId idx])
        else (s, false, [ChanAction.pubSensorData s.deviceId idx])
      else (s, false, [])
  else (s, false, [])

/-! ## The firmware control flow (main file `setup()` / `loop()`)

`MainPC` is the program counter of the sequential main program: it calls
`registerDevice`, spins on `isDeviceRegistered()` (restarting the process on
timeout), then calls `registerSensors`, spins on `isSensorsRegistered()`
(continuing either way), and finally enters the operational loop that
publishes sensor data.  MQTT servicing (`mqttClient.loop()` ticks and
callback deliveries of response messages) can happen in every phase. -/

inductive MainPC
  | beforeDeviceReg
  | awaitDeviceResp
  | beforeSensorReg
  | awaitSensorResp
  | opLoop
deriving DecidableEq

structure SysState where
  client : ClientState
  pc : MainPC
deriving DecidableEq

/-- The freshly constructed `MQTTClient` after `setDevice` stored the MAC. -/
def initClient (mac : List Nat) : ClientState := { macAddress := mac }

/-- One step of the firmware: client ticks and message deliveries are possible
in every phase; the `setup()` sequencing is reflected in the `pc` guards, and
`ESP.restart()` returns the system to the initial state. -/
inductive Step : SysState → SysState → List ChanAction → Prop
  | tick (now : Nat) (cOk : Bool) (s : SysState) :
      Step s ⟨(loopFn now cOk s.client).1, s.pc⟩ (loopFn now cOk s.client).2
  | deliver (cOk : Bool) (msg : Option RespDoc) (s : SysState)
      (hconn : s.client.connected = true) :
      Step s ⟨(handleRegistrationResponse cOk s.client msg).1, s.pc⟩
        (handleRegistrationResponse cOk s.client msg).2.2
  | registerDeviceStep (now : Nat) (cOk pOk : Bool) (s : SysState)
      (hpc : s.pc = MainPC.beforeDeviceReg) :
      Step s ⟨(registerDevice now cOk pOk s.client).1, MainPC.awaitDeviceResp⟩
        (registerDevice now cOk pOk s.client).2.2
  | deviceRegObserved (s : SysState) (hpc : s.pc = MainPC.awaitDeviceResp)
      (hreg : s.client.deviceRegistrationComplete = true) :
      Step s ⟨s.client, MainPC.beforeSensorReg⟩ []
  | deviceRegTimeoutRestart (s : SysState) (hpc : s.pc = MainPC.awaitDeviceResp)
      (hreg : s.client.deviceRegistrationComplete = false) :
      Step s ⟨initClient s.client.macAddress, MainPC.beforeDeviceReg⟩ []
  | connectTimeoutRestart (s : SysState) (hpc : s.pc = MainPC.beforeDeviceReg)
      (hconn : s.client.connected = false) :
      Step s ⟨initClient s.client.macAddress, MainPC.beforeDeviceReg⟩ []
  | registerSensorsStep (now : Nat) (pOk : Bool) (s : SysState)
      (hpc : s.pc = MainPC.beforeSensorReg) :
      Step s ⟨(registerSensors now pOk s.client).1, MainPC.awaitSensorResp⟩
        (registerSensors now pOk s.client).2.2
  | sensorWaitEnd (s : SysState) (hpc : s.pc = MainPC.awaitSensorResp) :
      Step s ⟨s.client, MainPC.opLoop⟩ []
  | publishDataStep (pOk : Bool) (idx : Option Int) (s : SysState)
      (hpc : s.pc = MainPC.opLoop)
      (hreg : s.client.deviceRegistrationComplete = true)
      (hsens : s.client.sensorsRegistrationComplete = true) :
      Step s ⟨(publishSensorData pOk s.client idx).1, MainPC.opLoop⟩
        (publishSensorData pOk s.client idx).2.2

/-- States reachable from a fresh boot (any hardware MAC). -/
inductive Reachable : SysState → Prop
  | init (mac : List Nat) : Reachable ⟨initClient mac, MainPC.beforeDeviceReg⟩
  | step {s s' : SysState} {acts : List ChanAction} :
      Reachable s → Step s s' acts → Reachable s'

theorem lowerByte_eq_colon (b : Nat) : lowerByte b = 58 ↔ b = 58 := by
  unfold lowerByte
  split_ifs with h
  · omega
  · exact Iff.rfl

theorem stripColons_lowerStr (l : List Nat) :
    stripColons (lowerStr l) = lowerStr (stripColons l) := by
  unfold stripColons lowerStr
  rw [List.filter_map]
  have hp : ((fun b => decide (b ≠ 58)) ∘ lowerByte) = (fun b : Nat => decide (b ≠ 58)) := by
    funext b
    simp only [Function.comp_apply]
    by_cases h : b = 58
    · subst h
      simp [lowerByte]
    · have h2 : lowerByte b ≠ 58 := fun hc => h ((lowerByte_eq_colon b).mp hc)
      simp [h, h2]
  rw [hp]

theorem hexChars_take (l : List Nat) (n : Nat) :
    hexChars (l.take n) = (hexChars l).take (2 * n) := by
  induction l generalizing n with
  | nil => simp [hexChars]
  | cons a l ih =>
    cases n with
    | zero => simp [hexChars]
    | succ m =>
      have harith : 2 * (m + 1) = 2 * m + 1 + 1 := by omega
      simp only [List.take_succ_cons, hexChars, List.flatMap_cons, hexByte,
        List.cons_append, List.nil_append, harith, List.take_succ_cons]
      exact congrArg _ (congrArg _ (ih m))

/-! ## Helper lemmas about the state machine -/

theorem reconnect_cases (cOk : Bool) (s : ClientState) :
    reconnect cOk s = (s, false, []) ∨
    reconnect cOk s =
      ({ s with connected := true }, true,
       [ChanAction.connectAttempt s.deviceRegistrationComplete]) ∨
    reconnect cOk s =
      ({ s with connected := false }, false,
       [ChanAction.connectAttempt s.deviceRegistrationComplete]) := by
  unfold reconnect
  split_ifs <;> simp

theorem reconnect_acts_mem (cOk : Bool) (s : ClientState) :
    ∀ a ∈ (reconnect cOk s).2.2, ∃ b, a = ChanAction.connectAttempt b := by
  unfold reconnect
  split_ifs <;> simp

theorem reconnectPhase_frame (now : Nat) (cOk : Bool) (s : ClientState) :
    (reconnectPhase now cOk s).1.deviceRegistrationComplete = s.deviceRegistrationComplete ∧
    (reconnectPhase now cOk s).1.sensorsRegistrationComplete = s.sensorsRegistrationComplete ∧
    (reconnectPhase now cOk s).1.deviceId = s.deviceId ∧
    (reconnectPhase now cOk s).1.waitingForResponse = s.waitingForResponse ∧
    (reconnectPhase now cOk s).1.responseTimeout = s.responseTimeout ∧
    (reconnectPhase now cOk s).1.macAddress = s.macAddress := by
  unfold reconnectPhase
  rcases reconnect_cases cOk { s with lastReconnectAttempt := now } with h | h | h <;>
    rw [h] <;> split_ifs <;> simp

theorem reconnectPhase_acts (now : Nat) (cOk : Bool) (s : ClientState) :
    ∀ a ∈ (reconnectPhase now cOk s).2, ∃ b, a = ChanAction.connectAttempt b := by
  unfold reconnectPhase
  rcases reconnect_cases cOk { s with lastReconnectAttempt := now } with h | h | h <;>
    rw [h] <;> split_ifs <;> simp <;> intro a ha <;> simp_all

theorem loopFn_frame (now : Nat) (cOk : Bool) (s : ClientState) :
    (loopFn now cOk s).1.deviceRegistrationComplete = s.deviceRegistrationComplete ∧
    (loopFn now cOk s).1.sensorsRegistrationComplete = s.sensorsRegistrationComplete ∧
    (loopFn now cOk s).1.deviceId = s.deviceId ∧
    (loopFn now cOk s).1.macAddress = s.macAddress := by
  unfold loopFn clearTimeout
  have h := reconnectPhase_frame now cOk s
  split_ifs <;> simp_all

theorem loopFn_acts (now : Nat) (cOk : Bool) (s : ClientState) :
    ∀ a ∈ (loopFn now cOk s).2, ∃ b, a = ChanAction.connectAttempt b := by
  unfold loopFn clearTimeout
  have h := reconnectPhase_acts now cOk s
  split_ifs <;> simpa using h

theorem handle_devReg_mono (cOk : Bool) (s : ClientState) (msg : Option RespDoc)
    (h : s.deviceRegistrationComplete = true) :
    (handleRegistrationResponse cOk s msg).1.deviceRegistrationComplete = true := by
  unfold handleRegistrationResponse
  split
  · simpa using h
  · split
    · simpa using h
    · split_ifs <;> simp_all

theorem handle_acts (cOk : Bool) (s : ClientState) (msg : Option RespDoc) :
    ∀ a ∈ (handleRegistrationResponse cOk s msg).2.2,
      a = ChanAction.disconnect ∨ ∃ b, a = ChanAction.connectAttempt b := by
  unfold handleRegistrationResponse
  split
  · simp
  · split
    · simp
    · split_ifs with h1 h2
      · intro a ha
        simp only [List.mem_cons] at ha
        rcases ha with rfl | ha
        · exact Or.inl rfl
        · exact Or.inr (reconnect_acts_mem _ _ a ha)
      · simp
      · simp

theorem registerDevice_acts (now : Nat) (cOk pOk : Bool) (s : ClientState) :
    ∀ a ∈ (registerDevice now cOk pOk s).2.2,
      a = ChanAction.pubDeviceReg ∨ ∃ b, a = ChanAction.connectAttempt b := by
  unfold registerDevice
  split_ifs <;> intro a ha <;>
    simp only [List.mem_singleton, List.mem_append, List.not_mem_nil] at ha <;>
  first
    | exact Or.inl ha
    | (rcases ha with h2 | h2
       · exact Or.inr (reconnect_acts_mem _ _ a h2)
       · exact Or.inl h2)
    | exact Or.inr (reconnect_acts_mem _ _ a ha)

theorem registerSensors_frame (now : Nat) (pOk : Bool) (s : ClientState) :
    (registerSensors now pOk s).1.deviceRegistrationComplete = s.deviceRegistrationComplete ∧
    (registerSensors now pOk s).1.sensorsRegistrationComplete = s.sensorsRegistrationComplete ∧
    (registerSensors now pOk s).1.deviceId = s.deviceId := by
  unfold registerSensors
  split_ifs <;> simp

theorem publishSensorData_fst (pOk : Bool) (s : ClientState) (msg : Option Int) :
    (publishSensorData pOk s msg).1 = s := by
  unfold publishSensorData
  match msg with
  | none => split_ifs <;> simp
  | some idx => split_ifs <;> simp

theorem publishSensorData_acts (pOk : Bool) (s : ClientState) (msg : Option Int) :
    ∀ a ∈ (publishSensorData pOk s msg).2.2, ∃ d i, a = ChanAction.pubSensorData d i := by
  unfold publishSensorData
  match msg with
  | none => split_ifs <;> simp
  | some idx => split_ifs <;> intro a ha <;> simp_all

/-- Invariant: once the main program has passed the device-registration wait,
the device-registration flag is set. -/
def PhaseInv (s : SysState) : Prop :=
  (s.pc = MainPC.beforeSensorReg ∨ s.pc = MainPC.awaitSensorResp ∨ s.pc = MainPC.opLoop) →
  s.client.deviceRegistrationComplete = true

theorem step_preserves_phaseInv {s s' : SysState} {acts : List ChanAction}
    (hs : Step s s' acts) (ih : PhaseInv s) : PhaseInv s' := by
  cases hs with
  | tick now cOk s =>
    intro hpc
    show (loopFn now cOk s.client).1.deviceRegistrationComplete = true
    rw [(loopFn_frame now cOk s.client).1]
    exact ih hpc
  | deliver cOk msg s hconn =>
    intro hpc
    exact handle_devReg_mono cOk s.client msg (ih hpc)
  | registerDeviceStep now cOk pOk s hpc' =>
    intro hpc; rcases hpc with h | h | h <;> simp at h
  | deviceRegObserved s hpc' hreg =>
    intro _; exact hreg
  | deviceRegTimeoutRestart s hpc' hreg =>
    intro hpc; rcases hpc with h | h | h <;> simp at h
  | connectTimeoutRestart s hpc' hconn =>
    intro hpc; rcases hpc with h | h | h <;> simp at h
  | registerSensorsStep now pOk s hpc' =>
    intro _
    show (registerSensors now pOk s.client).1.deviceRegistrationComplete = true
    rw [(registerSensors_frame now pOk s.client).1]
    exact ih (Or.inl hpc')
  | sensorWaitEnd s hpc' =>
    intro _; exact ih (Or.inr (Or.inl hpc'))
  | publishDataStep pOk idx s hpc' hreg hsens =>
    intro _
    show (publishSensorData pOk s.client idx).1.deviceRegistrationComplete = true
    rw [publishSensorData_fst]
    exact hreg

theorem reachable_phaseInv {s : SysState} (hr : Reachable s) : PhaseInv s := by
  induction hr with
  | init mac => intro hpc; rcases hpc with h | h | h <;> simp at h
  | step hr' hs ih => exact step_preserves_phaseInv hs ih

/-! ## Claims -/

/-- Claim C1: for every MAC and salt, the operational password computed by
the code (`generateMQTTPassword`) equals the first 32 hex characters of the
SHA-256 digest of the colon-stripped, lower-cased MAC concatenated with the
salt — the spec's `derivePassword` — and the function is pure and
deterministic: a second call on equal inputs returns the same string. -/
theorem c1_password_matches_spec (mac salt mac2 salt2 : List Nat)
    (h1 : mac2 = mac) (h2 : salt2 = salt) :
    generateMQTTPassword mac salt = derivePassword mac salt ∧
    generateMQTTPassword mac2 salt2 = generateMQTTPassword mac salt := by
  subst h1
  subst h2
  refine ⟨?_, rfl⟩
  unfold generateMQTTPassword derivePassword
  rw [stripColons_lowerStr]
  rw [show (32 : Nat) = 2 * 16 from rfl]
  exact hexChars_take _ 16

/-- Witness for C1 at a concrete MAC and salt. -/
theorem c1_password_matches_spec_witness :
    generateMQTTPassword (str "AA:BB:CC:DD:EE:FF") (str "mysalt") =
      derivePassword (str "AA:BB:CC:DD:EE:FF") (str "mysalt") ∧
    generateMQTTPassword (str "AA:BB:CC:DD:EE:FF") (str "mysalt") =
      generateMQTTPassword (str "AA:BB:CC:DD:EE:FF") (str "mysalt") :=
  c1_password_matches_spec _ _ _ _ rfl rfl

/-- Claim C2: for every MAC and prefix, the derived operational username is
the prefix, an underscore, then the colon-stripped lower-cased MAC; at
`mac = "AA:BB:CC:DD:EE:FF"`, `prefix = "esp32_dev"` the result is
`"esp32_dev_aabbccddeeff"`. -/
theorem c2_username_matches_spec (mac pre : List Nat) :
    generateMQTTUsername mac pre = deriveUsername mac pre ∧
    generateMQTTUsername (str "AA:BB:CC:DD:EE:FF") (str "esp32_dev") =
      str "esp32_dev_aabbccddeeff" :=
  ⟨rfl, by decide⟩

def c3s : ClientState :=
  { deviceId := 7, macAddress := str "AA:BB:CC:DD:EE:FF", connected := true,
    deviceRegistrationComplete := true, sensorsRegistrationComplete := false,
    waitingForResponse := true }

def c3doc : RespDoc := { status := some (str "registered"), id := some 7 }

/-- Counterexample to claim C3: with device registration complete and sensor
registration still pending, a duplicate device `registered` response is not a
no-op — the handler flips `sensorsRegistrationComplete`. -/
theorem c3_duplicate_registered_cex :
    c3s.deviceRegistrationComplete = true ∧
    (handleRegistrationResponse true c3s (some c3doc)).1 ≠ c3s ∧
    (handleRegistrationResponse true c3s (some c3doc)).1.sensorsRegistrationComplete = true ∧
    c3s.sensorsRegistrationComplete = false := by decide

/-- Claim C3 amended: after device registration is complete, a further
`registered` response (in particular a stale duplicate of the device one) is
treated as the sensor-registration response: it sets
`sensorsRegistrationComplete` and clears the waiting flag, leaving
`deviceId` and `deviceRegistrationComplete` unchanged; it is a state no-op
only when those two fields already have those values. -/
theorem c3_duplicate_registered_amended (cOk : Bool) (s : ClientState) (doc : RespDoc)
    (hreg : s.deviceRegistrationComplete = true)
    (hst : doc.status = some (str "registered")) :
    handleRegistrationResponse cOk s (some doc) =
      ({ s with sensorsRegistrationComplete := true, waitingForResponse := false },
       true, []) := by
  obtain ⟨dst, did, dsr, dcr, dm⟩ := doc
  replace hst : dst = some (str "registered") := hst
  subst hst
  unfold handleRegistrationResponse
  simp [hreg]

/-- Witness for the amended C3 at a concrete state and payload. -/
theorem c3_duplicate_registered_amended_witness :
    handleRegistrationResponse true c3s (some c3doc) =
      ({ c3s with sensorsRegistrationComplete := true, waitingForResponse := false },
       true, []) :=
  c3_duplicate_registered_amended true c3s c3doc (by decide) (by decide)

def c4mac : List Nat := str "AA:BB:CC:DD:EE:FF"

def c4doc : RespDoc := { status := some (str "registered") }

def c4s0 : SysState := ⟨initClient c4mac, MainPC.beforeDeviceReg⟩

def c4s1 : SysState := ⟨(loopFn 6000 true c4s0.client).1, c4s0.pc⟩

def c4s2 : SysState := ⟨(registerDevice 7000 true true c4s1.client).1, MainPC.awaitDeviceResp⟩

def c4s3 : SysState := ⟨(handleRegistrationResponse true c4s2.client (some c4doc)).1, c4s2.pc⟩

def c4s4 : SysState := ⟨c4s3.client, MainPC.beforeSensorReg⟩

def c4s5 : SysState := ⟨(registerSensors 8000 true c4s4.client).1, MainPC.awaitSensorResp⟩

/-- The concrete trace: boot, connect, publish the device-registration
request, receive `{"status":"registered"}` without an `id`, observe
completion. -/
theorem c4_reach : Reachable c4s4 :=
  Reachable.step
    (Reachable.step
      (Reachable.step
        (Reachable.step (Reachable.init c4mac) (Step.tick 6000 true c4s0))
        (Step.registerDeviceStep 7000 true true c4s1 rfl))
      (Step.deliver true (some c4doc) c4s2 (by decide)))
    (Step.deviceRegObserved c4s3 rfl (by decide))

/-- Counterexample to claim C4 as stated: in a reachable trace whose
device-registration response carried no `id`, the firmware publishes the
sensor-registration request while `numericId` is still the sentinel `-1`. -/
theorem c4_sensor_request_before_id_cex :
    Reachable c4s4 ∧
    Step c4s4 c4s5 [ChanAction.pubSensorReg (-1)] ∧
    c4s4.client.deviceId = -1 ∧
    c4s4.client.deviceRegistrationComplete = true := by
  refine ⟨c4_reach, ?_, by decide, by decide⟩
  have hacts : (registerSensors 8000 true c4s4.client).2.2 =
      [ChanAction.pubSensorReg (-1)] := by decide
  have h := Step.registerSensorsStep 8000 true c4s4 rfl
  rw [hacts] at h
  exact h

/-- Claim C4 amended: in every reachable execution trace, no
sensor-registration request is published before device registration is
complete (a `registered` device response has been processed); the stored
numeric id may however still be the `-1` sentinel if that response carried
no `id` field. -/
theorem c4_sensor_request_requires_device_reg {s s' : SysState}
    {acts : List ChanAction} (d : Int) (hr : Reachable s) (hs : Step s s' acts)
    (hmem : ChanAction.pubSensorReg d ∈ acts) :
    s.client.deviceRegistrationComplete = true := by
  cases hs with
  | tick now cOk s =>
    rcases loopFn_acts now cOk s.client _ hmem with ⟨b, hb⟩
    simp at hb
  | deliver cOk msg s hconn =>
    rcases handle_acts cOk s.client msg _ hmem with h | ⟨b, hb⟩ <;> simp_all
  | registerDeviceStep now cOk pOk s hpc =>
    rcases registerDevice_acts now cOk pOk s.client _ hmem with h | ⟨b, hb⟩ <;> simp_all
  | deviceRegObserved s hpc hreg => simp at hmem
  | deviceRegTimeoutRestart s hpc hreg => simp at hmem
  | connectTimeoutRestart s hpc hconn => simp at hmem
  | registerSensorsStep now pOk s hpc =>
    exact reachable_phaseInv hr (Or.inl hpc)
  | sensorWaitEnd s hpc => simp at hmem
  | publishDataStep pOk idx s hpc hreg hsens => exact hreg

/-- Witness for the amended C4 on the concrete trace. -/
theorem c4_sensor_request_requires_device_reg_witness :
    c4s4.client.deviceRegistrationComplete = true :=
  c4_sensor_request_requires_device_reg (-1) c4_reach
    (Step.registerSensorsStep 8000 true c4s4 rfl) (by decide)

/-- Claim C5: a `registered` response with id 7 processed while device
registration is pending (`AwaitingDeviceAck`) completes device registration
with `deviceId = 7` and triggers exactly one credential switch: one
disconnect followed by one reconnect attempt with the operational (device)
credentials. -/
theorem c5_device_ack_transition (cOk : Bool) (s : ClientState) (doc : RespDoc)
    (hreg : s.deviceRegistrationComplete = false)
    (hmac : s.macAddress ≠ [])
    (hst : doc.status = some (str "registered"))
    (hid : doc.id = some 7) :
    handleRegistrationResponse cOk s (some doc) =
      ({ s with deviceRegistrationComplete := true, deviceId := 7,
                connected := cOk, waitingForResponse := false }, true,
       [ChanAction.disconnect, ChanAction.connectAttempt true]) := by
  obtain ⟨dst, did, dsr, dcr, dm⟩ := doc
  replace hst : dst = some (str "registered") := hst
  replace hid : did = some 7 := hid
  subst hst
  subst hid
  unfold handleRegistrationResponse reconnect
  cases cOk <;> simp [hreg, hmac]

def c5s : ClientState :=
  { macAddress := str "AA:BB:CC:DD:EE:FF", connected := true, waitingForResponse := true }

def c5doc : RespDoc := { status := some (str "registered"), id := some 7 }

/-- Witness for C5 at a concrete state and payload. -/
theorem c5_device_ack_transition_witness :
    handleRegistrationResponse true c5s (some c5doc) =
      ({ c5s with deviceRegistrationComplete := true, deviceId := 7,
                  connected := true, waitingForResponse := false }, true,
       [ChanAction.disconnect, ChanAction.connectAttempt true]) :=
  c5_device_ack_transition true c5s c5doc (by decide) (by decide) (by decide) (by decide)

def c6s : ClientState :=
  { macAddress := str "AA:BB:CC:DD:EE:FF", connected := true, waitingForResponse := true }

def c6doc : RespDoc := { status := some (str "error"), message := str "backend failure" }

/-- Counterexample to claim C6: an `error` response does not clear the
waiting-for-response flag — the handler leaves it set. -/
theorem c6_error_keeps_pending_flag_cex :
    c6s.waitingForResponse = true ∧
    (handleRegistrationResponse true c6s (some c6doc)).1.waitingForResponse = true := by
  decide

/-- Claim C6 amended: an `error` response leaves the whole registration
state — phase flags, `deviceId`, and also the pending (waiting-for-response)
flag — unchanged, and triggers no retry or re-publish (no channel actions);
the pending flag is only cleared later by the separate timeout path. -/
theorem c6_error_response_amended (cOk : Bool) (s : ClientState) (doc : RespDoc)
    (hst : doc.status = some (str "error")) :
    handleRegistrationResponse cOk s (some doc) = (s, false, []) := by
  obtain ⟨dst, did, dsr, dcr, dm⟩ := doc
  replace hst : dst = some (str "error") := hst
  subst hst
  have hne : ¬(str "error" = str "registered") := by decide
  unfold handleRegistrationResponse
  simp [hne]

/-- Witness for the amended C6 at a concrete state and payload. -/
theorem c6_error_response_amended_witness :
    handleRegistrationResponse true c6s (some c6doc) = (c6s, false, []) :=
  c6_error_response_amended true c6s c6doc (by decide)

/-- Claim C7: when the response timeout has elapsed with the waiting flag
set, the next `loop()` tick clears only that flag: both registration flags
and the stored `deviceId` are unchanged, and no request is published. -/
theorem c7_timeout_clears_only_flag (now : Nat) (cOk : Bool) (s : ClientState)
    (hw : s.waitingForResponse = true)
    (ht : sub32 now s.responseTimeout > 10000) :
    (loopFn now cOk s).1.waitingForResponse = false ∧
    (loopFn now cOk s).1.deviceRegistrationComplete = s.deviceRegistrationComplete ∧
    (loopFn now cOk s).1.sensorsRegistrationComplete = s.sensorsRegistrationComplete ∧
    (loopFn now cOk s).1.deviceId = s.deviceId ∧
    ∀ a ∈ (loopFn now cOk s).2, isPublishAction a = false := by
  have hf := loopFn_frame now cOk s
  have hacts := loopFn_acts now cOk s
  refine ⟨?_, hf.1, hf.2.1, hf.2.2.1, ?_⟩
  · unfold loopFn clearTimeout
    have hp := reconnectPhase_frame now cOk s
    split_ifs with hc
    · simp
    · exact absurd ⟨by rw [hp.2.2.2.1]; exact hw, by rw [hp.2.2.2.2.1]; exact ht⟩ hc
  · intro a ha
    rcases hacts a ha with ⟨b, hb⟩
    subst hb
    rfl

def c7s : ClientState :=
  { macAddress := str "AA:BB:CC:DD:EE:FF", connected := true,
    deviceRegistrationComplete := true, waitingForResponse := true,
    responseTimeout := 0 }

/-- Witness for C7 at a concrete state and tick time. -/
theorem c7_timeout_clears_only_flag_witness :
    (loopFn 20000 true c7s).1.waitingForResponse = false ∧
    (loopFn 20000 true c7s).1.deviceRegistrationComplete = c7s.deviceRegistrationComplete ∧
    (loopFn 20000 true c7s).1.sensorsRegistrationComplete = c7s.sensorsRegistrationComplete ∧
    (loopFn 20000 true c7s).1.deviceId = c7s.deviceId ∧
    ∀ a ∈ (loopFn 20000 true c7s).2, isPublishAction a = false :=
  c7_timeout_clears_only_flag 20000 true c7s (by decide) (by decide)

/-- Claim C8: a `registered` response without an `id` field, processed while
device registration is pending, still completes device registration, clears
the waiting flag and performs the credential switch, while `deviceId` keeps
its `-1` sentinel. -/
theorem c8_registered_without_id (cOk : Bool) (s : ClientState) (doc : RespDoc)
    (hreg : s.deviceRegistrationComplete = false)
    (hdev : s.deviceId = -1)
    (hmac : s.macAddress ≠ [])
    (hst : doc.status = some (str "registered"))
    (hid : doc.id = none) :
    handleRegistrationResponse cOk s (some doc) =
      ({ s with deviceRegistrationComplete := true, connected := cOk,
                waitingForResponse := false }, true,
       [ChanAction.disconnect, ChanAction.connectAttempt true]) ∧
    (handleRegistrationResponse cOk s (some doc)).1.deviceId = -1 := by
  obtain ⟨dst, did, dsr, dcr, dm⟩ := doc
  replace hst : dst = some (str "registered") := hst
  replace hid : did = none := hid
  subst hst
  subst hid
  constructor
  · unfold handleRegistrationResponse reconnect
    cases cOk <;> simp [hreg, hmac]
  · unfold handleRegistrationResponse reconnect
    cases cOk <;> simp [hreg, hmac, hdev]

def c8s : ClientState := { macAddress := str "AA:BB:CC:DD:EE:FF" }

def c8doc : RespDoc := { status := some (str "registered") }

/-- Witness for C8 at a concrete state and payload. -/
theorem c8_registered_without_id_witness :
    handleRegistrationResponse true c8s (some c8doc) =
      ({ c8s with deviceRegistrationComplete := true, connected := true,
                  waitingForResponse := false }, true,
       [ChanAction.disconnect, ChanAction.connectAttempt true]) ∧
    (handleRegistrationResponse true c8s (some c8doc)).1.deviceId = -1 :=
  c8_registered_without_id true c8s c8doc (by decide) (by decide) (by decide)
    (by decide) (by decide)

/-- Claim C9: an unparseable payload clears the waiting flag and the handler
returns false; a parsed payload without a `status` key returns false and
leaves the waiting flag as it was; in both cases the phase flags and
`deviceId` are unchanged and no channel action is emitted (the model is a
total function — no exception escapes). -/
theorem c9_malformed_payload_handling (cOk : Bool) (s : ClientState) (doc : RespDoc)
    (hst : doc.status = none) :
    handleRegistrationResponse cOk s none =
      ({ s with waitingForResponse := false }, false, []) ∧
    handleRegistrationResponse cOk s (some doc) = (s, false, []) := by
  obtain ⟨dst, did, dsr, dcr, dm⟩ := doc
  replace hst : dst = none := hst
  subst hst
  exact ⟨rfl, rfl⟩

def c9s : ClientState :=
  { macAddress := str "AA:BB:CC:DD:EE:FF", connected := true, waitingForResponse := true }

def c9doc : RespDoc := {}

/-- Witness for C9 at a concrete state and payload. -/
theorem c9_malformed_payload_handling_witness :
    handleRegistrationResponse true c9s none =
      ({ c9s with waitingForResponse := false }, false, []) ∧
    handleRegistrationResponse true c9s (some c9doc) = (c9s, false, []) :=
  c9_malformed_payload_handling true c9s c9doc rfl

/-- Claim C10: while sensor registration is not complete,
`publishSensorData` returns false, changes nothing, and publishes on no
topic, for every payload. -/
theorem c10_publish_requires_sensor_reg (pOk : Bool) (s : ClientState) (msg : Option Int)
    (hs : s.sensorsRegistrationComplete = false) :
    publishSensorData pOk s msg = (s, false, []) := by
  unfold publishSensorData
  simp [hs]

def c10s : ClientState :=
  { macAddress := str "AA:BB:CC:DD:EE:FF", connected := true,
    deviceRegistrationComplete := true }

/-- Witness for C10 at a concrete state and payload. -/
theorem c10_publish_requires_sensor_reg_witness :
    publishSensorData true c10s (some 0) = (c10s, false, []) :=
  c10_publish_requires_sensor_reg true c10s (some 0) (by decide)

end FindSpot
